import Mathlib

/-!
Verification of the Event-Manager application (src/app.py) against its
natural-language specification.  The Python code is shallowly embedded:
the per-tenant SQLite database becomes an explicit `TenantDB` state, the
collection of per-admin database files becomes an association list keyed
by the sanitized admin identifier, and each Streamlit handler becomes a
pure state-passing function.  Wall-clock reads (`time.time()`) are passed
in as explicit `Nat` arguments.
-/

namespace EventApp

/-- Python's Unicode-aware `str.isalnum`, modelled on its code-point value,
restricted to the Latin-1 range (code points below 0x100): ASCII digits and
letters, the Latin-1 letter blocks U+00C0 to U+00FF minus the multiplication
sign U+00D7 and the division sign U+00F7, and the letter-like or numeric
signs U+00AA, U+00B2, U+00B3, U+00B5, U+00B9, U+00BA, U+00BC, U+00BD,
U+00BE.  Code points at or above 0x100 are mapped to `false`; no theorem
below evaluates the sanitizer outside the Latin-1 range. -/
def pyAlnumNat (n : Nat) : Bool :=
  (0x30 ≤ n && n ≤ 0x39) || (0x41 ≤ n && n ≤ 0x5A) || (0x61 ≤ n && n ≤ 0x7A) ||
  n == 0xAA || n == 0xB2 || n == 0xB3 || n == 0xB5 || n == 0xB9 || n == 0xBA ||
  n == 0xBC || n == 0xBD || n == 0xBE ||
  (0xC0 ≤ n && n ≤ 0xFF && !(n == 0xD7) && !(n == 0xF7))

/-- Python `c.isalnum()` for a single character (Latin-1 fragment). -/
def pyIsAlnum (c : Char) : Bool := pyAlnumNat c.toNat

/-- Python `c.isspace()` for a single character (Latin-1 fragment): the ASCII
control whitespace 0x09-0x0D, the file/group/record/unit separators
0x1C-0x1F, the space 0x20, the next-line 0x85 and the no-break space 0xA0. -/
def pySpaceNat (n : Nat) : Bool :=
  (0x09 ≤ n && n ≤ 0x0D) || (0x1C ≤ n && n ≤ 0x20) || n == 0x85 || n == 0xA0

/-- Python `c.isspace()` on a `Char`. -/
def pyIsSpace (c : Char) : Bool := pySpaceNat c.toNat

/-- The filter predicate of `sanitize_id` (app.py line 26):
`c.isalnum() or c in ('-', '_')`. -/
def keepChar (c : Char) : Bool := pyIsAlnum c || c == '-' || c == '_'

/-- Python `str.rstrip()` on an explicit character list: remove trailing
characters `c` with `c.isspace()`. -/
def pyRstrip (l : List Char) : List Char :=
  (l.reverse.dropWhile pyIsSpace).reverse

/-- `EventManager.sanitize_id` / `sanitize_admin_id` (app.py lines 24-26 and
103-105, both bodies identical):
`"".join(c for c in admin_id if c.isalnum() or c in ('-', '_')).rstrip()`. -/
def sanitize_id (admin_id : String) : String :=
  ⟨pyRstrip (admin_id.data.filter keepChar)⟩

/-- An alphanumeric code point is never a whitespace code point. -/
theorem pyAlnumNat_not_space {n : Nat} (h : pyAlnumNat n = true) :
    pySpaceNat n = false := by
  rw [Bool.eq_false_iff]
  intro hs
  unfold pyAlnumNat at h
  unfold pySpaceNat at hs
  simp only [Bool.or_eq_true, Bool.and_eq_true, decide_eq_true_eq,
    beq_iff_eq, Bool.not_eq_true'] at h hs
  omega

/-- A kept character is never whitespace. -/
theorem keepChar_not_space {c : Char} (h : keepChar c = true) :
    pyIsSpace c = false := by
  rcases Bool.or_eq_true_iff.1 h with h' | h'
  · rcases Bool.or_eq_true_iff.1 h' with h'' | h''
    · exact pyAlnumNat_not_space h''
    · have : c = '-' := by exact beq_iff_eq.1 h''
      subst this; decide
  · have : c = '_' := by exact beq_iff_eq.1 h'
    subst this; decide

/-- `pyRstrip` is the identity on a list with no whitespace characters. -/
theorem pyRstrip_eq_self {l : List Char}
    (h : ∀ c ∈ l, pyIsSpace c = false) : pyRstrip l = l := by
  unfold pyRstrip
  have hd : l.reverse.dropWhile pyIsSpace = l.reverse := by
    rw [List.dropWhile_eq_self_iff]
    intro hx
    have hlen : 0 < l.length := by simpa using hx
    have hmem : l[l.length - 1] ∈ l := List.getElem_mem (by omega)
    simp [h _ hmem]
  rw [hd, List.reverse_reverse]

/-- Every character of a sanitized string satisfies `keepChar`. -/
theorem sanitize_id_chars (x : String) :
    ∀ c ∈ (sanitize_id x).data, keepChar c = true := by
  intro c hc
  unfold sanitize_id at hc
  simp only at hc
  unfold pyRstrip at hc
  have h1 : c ∈ (x.data.filter keepChar).reverse.dropWhile pyIsSpace := by
    exact List.mem_reverse.1 hc
  have h2 : c ∈ (x.data.filter keepChar).reverse :=
    (List.dropWhile_sublist _).subset h1
  have h3 : c ∈ x.data.filter keepChar := List.mem_reverse.1 h2
  exact (List.mem_filter.1 h3).2

/-- The sanitized string is an order-preserving selection (a sublist) of the
input's characters. -/
theorem sanitize_id_sublist (x : String) :
    (sanitize_id x).data.Sublist x.data := by
  unfold sanitize_id pyRstrip
  simp only
  have h1 : ((x.data.filter keepChar).reverse.dropWhile pyIsSpace).Sublist
      (x.data.filter keepChar).reverse := List.dropWhile_sublist _
  have h2 := h1.reverse
  rw [List.reverse_reverse] at h2
  exact h2.trans (List.filter_sublist _)

/-- C7: the Identifier Sanitizer is idempotent:
`sanitize(sanitize(x)) = sanitize(x)` for every input string. -/
theorem C7_sanitize_idempotent (x : String) :
    sanitize_id (sanitize_id x) = sanitize_id x := by
  have hkeep := sanitize_id_chars x
  have hfilter : (sanitize_id x).data.filter keepChar = (sanitize_id x).data :=
    List.filter_eq_self.2 hkeep
  have hnospace : ∀ c ∈ (sanitize_id x).data, pyIsSpace c = false :=
    fun c hc => keepChar_not_space (hkeep c hc)
  show (⟨pyRstrip ((sanitize_id x).data.filter keepChar)⟩ : String) = sanitize_id x
  rw [hfilter, pyRstrip_eq_self hnospace]

/-- C6 counterexample: the claim says the sanitizer's output contains only
ASCII alphanumerics, '-' and '_' for every input, including non-ASCII
unicode.  Python's `str.isalnum` is Unicode-aware: on input "é" (U+00E9, a
letter, so `'é'.isalnum()` is `True` in Python) the sanitizer returns "é"
unchanged, and 'é' is not an ASCII alphanumeric, '-' or '_'. -/
theorem C6_counterexample :
    sanitize_id "é" = "é" ∧
    ∃ c ∈ (sanitize_id "é").data, (c.isAlphanum || c == '-' || c == '_') = false := by
  constructor
  · rfl
  · refine ⟨'é', ?_, ?_⟩
    · decide
    · decide

/-- C6 amended: for every input string, the sanitizer keeps exactly the
characters that are alphanumeric under Python's Unicode-aware `isalnum`
or are '-' or '_' (not only ASCII alphanumerics), preserving their order;
all other characters are dropped and no whitespace remains anywhere in the
output (so in particular trailing whitespace is removed). -/
theorem C6_sanitize_alphabet (x : String) :
    (∀ c ∈ (sanitize_id x).data, (pyIsAlnum c || c == '-' || c == '_') = true) ∧
    (sanitize_id x).data.Sublist x.data ∧
    (∀ c ∈ (sanitize_id x).data, pyIsSpace c = false) := by
  refine ⟨sanitize_id_chars x, sanitize_id_sublist x, ?_⟩
  exact fun c hc => keepChar_not_space (sanitize_id_chars x c hc)

/-! ## Data model: one tenant's SQLite file (init_db, app.py lines 28-62) -/

/-- A row of the `events` table (app.py lines 32-44).  `created_at` is the
`CURRENT_TIMESTAMP` default, modelled as a `Nat` clock value (the textual
SQLite timestamp is ordered exactly as the clock it prints). -/
structure Event where
  event_id : String
  event_name : String
  event_date : String
  event_description : String
  collect_name : Bool
  collect_phone : Bool
  collect_email : Bool
  collect_company : Bool
  collect_dietary : Bool
  created_at : Nat
deriving DecidableEq, Repr

/-- A row of the `registrations` table (app.py lines 46-60).  `id` is the
AUTOINCREMENT surrogate key, `registered_at` the textual `CURRENT_TIMESTAMP`
default, `checked_in` the INTEGER DEFAULT 0 flag read as a boolean. -/
structure Registration where
  id : Nat
  event_id : String
  name : Option String
  phone : Option String
  email : Option String
  company : Option String
  dietary : Option String
  event_type : Option String
  ticket_id : String
  registered_at : String
  checked_in : Bool
deriving DecidableEq, Repr

/-- A SQLite value as handed to Python by `fetchone()`. -/
inductive SqlValue where
  | int (n : Int)
  | text (s : String)
  | null
deriving DecidableEq, Repr

/-- A nullable TEXT column value. -/
def optText : Option String → SqlValue
  | none => SqlValue.null
  | some s => SqlValue.text s

/-- The `SELECT *` row of a registration, in the declared column order
(app.py lines 46-60): id, event_id, name, phone, email, company, dietary,
event_type, ticket_id, registered_at, checked_in. -/
def Registration.star (r : Registration) : List SqlValue :=
  [SqlValue.int (Int.ofNat r.id), SqlValue.text r.event_id, optText r.name,
   optText r.phone, optText r.email, optText r.company, optText r.dietary,
   optText r.event_type, SqlValue.text r.ticket_id,
   SqlValue.text r.registered_at,
   SqlValue.int (if r.checked_in then 1 else 0)]

/-- Python `v == 1` where `v` is a value fetched from SQLite: integers
compare numerically, text and NULL are never equal to an integer. -/
def pyEqOne : SqlValue → Bool
  | SqlValue.int n => n == 1
  | SqlValue.text _ => false
  | SqlValue.null => false

/-- Python `v or "Guest"` where `v` is a fetched value: a non-empty string
is returned itself, everything falsy (empty string, 0, NULL) gives the
default. -/
def pyOrGuest : SqlValue → String
  | SqlValue.text s => if s = "" then "Guest" else s
  | SqlValue.int n => if n = 0 then "Guest" else toString n
  | SqlValue.null => "Guest"

/-- One tenant's database file `databases/events_{sanitized_id}.db`:
the two tables plus the AUTOINCREMENT counter for `registrations.id`. -/
structure TenantDB where
  events : List Event
  registrations : List Registration
  next_id : Nat
deriving DecidableEq, Repr

/-- The freshly created database (init_db on a new file). -/
def emptyDB : TenantDB := ⟨[], [], 1⟩

/-- The UNIQUE constraint on `registrations.ticket_id` (app.py line 56),
as a state invariant: no two rows share a ticket id. -/
def uniqueTickets (db : TenantDB) : Prop :=
  db.registrations.Pairwise (fun a b => a.ticket_id ≠ b.ticket_id)

/-! ## Tenant-level operations -/

/-- The five collect flags passed to `create_event` (app.py lines 448-454). -/
structure FormFields where
  name : Bool
  phone : Bool
  email : Bool
  company : Bool
  dietary : Bool
deriving DecidableEq, Repr

/-- `EventManager.create_event` (app.py lines 64-80): builds
`EVENT-{sanitize_id(event_name)}-{int(time.time())}` and INSERTs the row.
`event_id` is the PRIMARY KEY, so a duplicate id makes the INSERT raise;
that uncaught error is modelled as `none`. -/
def create_event (db : TenantDB) (event_name event_date event_description : String)
    (ff : FormFields) (now : Nat) : Option (String × TenantDB) :=
  let event_id := "EVENT-" ++ sanitize_id event_name ++ "-" ++ toString now
  if db.events.any (fun e => e.event_id == event_id) then none
  else some (event_id,
    { db with events := db.events ++
        [⟨event_id, event_name, event_date, event_description,
          ff.name, ff.phone, ff.email, ff.company, ff.dietary, now⟩] })

/-- The ORDER BY relation of `get_events`: row `a` may precede row `b`
when `a` was created no earlier than `b` (`created_at` descending). -/
def createdLater (a b : Event) : Prop := b.created_at ≤ a.created_at

instance : DecidableRel createdLater := fun _ _ => Nat.decLe _ _

instance : IsTotal Event createdLater :=
  ⟨fun a b => Nat.le_total b.created_at a.created_at⟩

instance : IsTrans Event createdLater :=
  ⟨fun _ _ _ hab hbc => Nat.le_trans hbc hab⟩

/-- `EventManager.get_events` (app.py lines 82-88):
`SELECT event_id, event_name, event_date, event_description FROM events
ORDER BY created_at DESC`. -/
def get_events (db : TenantDB) : List (String × String × String × String) :=
  (db.events.insertionSort createdLater).map
    (fun e => (e.event_id, e.event_name, e.event_date, e.event_description))

/-- The outcome `check_in_guest` reports through the UI. -/
inductive CheckInResult where
  | notFound
  | alreadyCheckedIn (name : String)
  | checkedIn (name : String)
deriving DecidableEq, Repr

/-- `check_in_guest` (app.py lines 568-586): fetch the first row with
`ticket_id = ? AND event_id = ?`; if the fetched row's column 9 equals the
integer 1 report already-checked-in (column 9 is `registered_at`, a textual
timestamp — the code's comment expects the `checked_in` flag, which is
column 10); otherwise run
`UPDATE registrations SET checked_in = 1 WHERE ticket_id = ?` and report
success.  Both messages name the guest by `guest[1] or "Guest"`, and
column 1 is `event_id`. -/
def check_in_guest (db : TenantDB) (ticket_id event_id : String) :
    CheckInResult × TenantDB :=
  match db.registrations.find?
      (fun r => r.ticket_id == ticket_id && r.event_id == event_id) with
  | none => (CheckInResult.notFound, db)
  | some guest =>
    if pyEqOne (guest.star.getD 9 SqlValue.null) then
      (CheckInResult.alreadyCheckedIn (pyOrGuest (guest.star.getD 1 SqlValue.null)), db)
    else
      let regs := db.registrations.map
        (fun r => if r.ticket_id == ticket_id
                  then { r with checked_in := true } else r)
      (CheckInResult.checkedIn (pyOrGuest (guest.star.getD 1 SqlValue.null)),
       { db with registrations := regs })

/-! ## Guest registration (show_guest_registration, app.py lines 142-286) -/

/-- The guest form values: a field key is present in `form_data` exactly
when the event collects it (app.py lines 188-206); `event_type` is the
package selectbox, which always holds a value (its default is the
placeholder "Select package"). -/
structure FormData where
  name : Option String
  phone : Option String
  email : Option String
  company : Option String
  dietary : Option String
  event_type : String
deriving DecidableEq, Repr

/-- Python truthiness of `form_data.get(k)`: `None` and the empty string
are falsy, any other string is truthy. -/
def pyTruthyOpt : Option String → Bool
  | none => false
  | some s => !(s == "")

/-- The `required_fields` list built on submission (app.py lines 212-220),
in the order the code appends them. -/
def required_fields (ev : Event) (form : FormData) : List String :=
  (if ev.collect_name && !(pyTruthyOpt form.name) then ["Full Name"] else []) ++
  (if ev.collect_phone && !(pyTruthyOpt form.phone) then ["Phone Number"] else []) ++
  (if ev.collect_email && !(pyTruthyOpt form.email) then ["Email Address"] else []) ++
  (if form.event_type == "Select package" then ["Event Package"] else [])

/-- Ticket generation (app.py lines 230-232):
`phone = form_data.get('phone', '')` and then
`ticket_id = f"TKT-{phone}-{int(time.time())}" if phone else f"TKT-{int(time.time())}"`. -/
def ticket_id_for (form : FormData) (now : Nat) : String :=
  let phone := form.phone.getD ""
  if phone ≠ "" then "TKT-" ++ phone ++ "-" ++ toString now
  else "TKT-" ++ toString now

/-- The INSERT INTO registrations (app.py lines 237-248).  The UNIQUE
constraint on `ticket_id` (line 56) makes a duplicate insert raise
`IntegrityError`, modelled as `none`; otherwise the row is appended with
the next AUTOINCREMENT id and `checked_in` at its default 0. -/
def insert_registration (db : TenantDB) (event_id : String) (form : FormData)
    (ticket_id : String) (now_str : String) : Option TenantDB :=
  if db.registrations.any (fun r => r.ticket_id == ticket_id) then none
  else some
    { db with
      registrations := db.registrations ++
        [⟨db.next_id, event_id, form.name, form.phone, form.email,
          form.company, form.dietary, some form.event_type, ticket_id,
          now_str, false⟩],
      next_id := db.next_id + 1 }

/-! ## The collection of per-admin database files -/

/-- All tenant database files, keyed by the sanitized admin id (the file
`databases/events_{sanitized_id}.db`).  An association list: `getDB` reads
the first entry with the key, `setDB` replaces it. -/
abbrev Databases := List (String × TenantDB)

/-- Look up a tenant database file; `none` models a missing file
(`os.path.exists` false). -/
def getDB (dbs : Databases) (key : String) : Option TenantDB :=
  (dbs.find? (fun p => p.1 == key)).map Prod.snd

/-- Write back a tenant database file (create it if absent). -/
def setDB : Databases → String → TenantDB → Databases
  | [], key, db => [(key, db)]
  | p :: rest, key, db =>
    if p.1 == key then (key, db) :: rest else p :: setDB rest key db

/-- `get_event_details` (app.py lines 107-139): sanitize the admin id,
resolve `databases/events_{sanitized}.db`, return `None` when the file does
not exist, otherwise fetch the first `events` row with the given
`event_id`.  The source selects the columns (name, date, description and
the five collect flags); we return the whole row and consumers read only
those fields. -/
def get_event_details (dbs : Databases) (admin_id event_id : String) :
    Option Event :=
  match getDB dbs (sanitize_id admin_id) with
  | none => none
  | some db => db.events.find? (fun e => e.event_id == event_id)

/-- Event creation from the dashboard (app.py lines 340-342 and 456-458):
`EventManager(admin_id)` opens (creating if needed) the tenant's database
file, then `create_event` runs against it. -/
def create_event_top (dbs : Databases)
    (admin_id event_name event_date event_description : String)
    (ff : FormFields) (now : Nat) : Option (String × Databases) :=
  let key := sanitize_id admin_id
  let db := (getDB dbs key).getD emptyDB
  match create_event db event_name event_date event_description ff now with
  | none => none
  | some (eid, db') => some (eid, setDB dbs key db')

/-- Event listing for an admin (`EventManager(admin_id).get_events()`):
the tenant's file is opened (created empty if absent) and `get_events`
runs against it. -/
def get_events_top (dbs : Databases) (admin_id : String) :
    List (String × String × String × String) :=
  get_events ((getDB dbs (sanitize_id admin_id)).getD emptyDB)

/-- The outcome of one guest form submission. -/
inductive RegResult where
  | eventNotFound
  | rejected (missing : List String)
  | completed (ticket_id : String)
  | failed
deriving DecidableEq, Repr

/-- The submission path of `show_guest_registration` (app.py lines
142-286): resolve the event via `get_event_details` (early return with an
error banner when it is missing); build `required_fields` and reject when
it is non-empty (lines 210-223); otherwise generate the ticket id and
INSERT (lines 226-250), the `except` clause turning a storage error into a
failure message that leaves the database unchanged (lines 284-286). -/
def submit_registration (dbs : Databases) (admin_id event_id : String)
    (form : FormData) (now : Nat) (now_str : String) : RegResult × Databases :=
  match get_event_details dbs admin_id event_id with
  | none => (RegResult.eventNotFound, dbs)
  | some ev =>
    let missing := required_fields ev form
    if missing = [] then
      let key := sanitize_id admin_id
      match getDB dbs key with
      | none => (RegResult.failed, dbs)
      | some db =>
        let tid := ticket_id_for form now
        match insert_registration db event_id form tid now_str with
        | none => (RegResult.failed, dbs)
        | some db' => (RegResult.completed tid, setDB dbs key db')
    else (RegResult.rejected missing, dbs)

/-- Modelled from the spec (for comparison with the code in claim C5):
"Storage conflict (duplicate ticket ID): retried internally with
regeneration, bounded attempts".  Each attempt reads the clock again
(`times` lists the successive clock values, one per allowed attempt, e.g.
three of them), regenerates the ticket id from it, and retries the insert;
exhaustion surfaces the transient failure. -/
def spec_retry_insert (db : TenantDB) (event_id : String) (form : FormData)
    (times : List Nat) (now_str : String) : RegResult × TenantDB :=
  match times with
  | [] => (RegResult.failed, db)
  | t :: rest =>
    let tid := ticket_id_for form t
    match insert_registration db event_id form tid now_str with
    | some db' => (RegResult.completed tid, db')
    | none => spec_retry_insert db event_id form rest now_str

/-! ## Concrete fixtures used by witnesses and counterexamples -/

/-- The default collect flags (name/phone/email on, company/dietary off). -/
def sampleFF : FormFields := ⟨true, true, true, false, false⟩

/-- A sample event row for tenant file "org". -/
def sampleEvent : Event :=
  ⟨"EVENT-Gala-50", "Gala", "2024-05-01", "", true, true, true, false, false, 50⟩

/-- A sample registration for `sampleEvent`, with the given check-in flag. -/
def sampleReg (checked : Bool) : Registration :=
  ⟨1, "EVENT-Gala-50", some "Ada", some "5551234", some "ada@example.com",
   none, none, some "Karaoke Only", "TKT-5551234-100", "2024-05-01 10:00:00",
   checked⟩

/-- A tenant database holding `sampleEvent` and one registration. -/
def sampleDB (checked : Bool) : TenantDB := ⟨[sampleEvent], [sampleReg checked], 2⟩

/-- The database files of a deployment with the single tenant file "org". -/
def sampleDBs (checked : Bool) : Databases := [("org", sampleDB checked)]

/-- Tenant file "org" with `sampleEvent` and no registrations yet. -/
def noRegDBs : Databases := [("org", ⟨[sampleEvent], [], 1⟩)]

/-- A complete, valid guest form for `sampleEvent` (guest Ada). -/
def formA : FormData :=
  ⟨some "Ada", some "5551234", some "ada@example.com", none, none, "Karaoke Only"⟩

/-- A different guest (Bob) who typed the same phone number. -/
def formB : FormData :=
  ⟨some "Bob", some "5551234", some "bob@example.com", none, none, "Karaoke Only"⟩

/-! ## Helper lemmas about the association list of database files -/

/-- Writing one tenant's file never changes what is read under a different
key. -/
theorem getDB_setDB_ne (dbs : Databases) (k k' : String) (db : TenantDB)
    (h : k ≠ k') : getDB (setDB dbs k db) k' = getDB dbs k' := by
  induction dbs with
  | nil =>
    simp only [setDB, getDB, List.find?]
    have : (k == k') = false := beq_eq_false_iff_ne.2 h
    simp [this]
  | cons p rest ih =>
    simp only [setDB]
    by_cases hp : p.1 = k
    · have hbeq : (p.1 == k) = true := beq_iff_eq.2 hp
      simp only [hbeq, if_true]
      have h1 : (k == k') = false := beq_eq_false_iff_ne.2 h
      have h2 : (p.1 == k') = false := beq_eq_false_iff_ne.2 (by rw [hp]; exact h)
      simp [getDB, List.find?, h1, h2]
    · have hbeq : (p.1 == k) = false := beq_eq_false_iff_ne.2 hp
      simp only [hbeq, if_false]
      by_cases hq : p.1 = k'
      · have h2 : (p.1 == k') = true := beq_iff_eq.2 hq
        simp [getDB, List.find?, h2]
      · have h2 : (p.1 == k') = false := beq_eq_false_iff_ne.2 hq
        simp only [getDB, List.find?, h2]
        exact ih

/-! ## C1: cross-tenant isolation -/

/-- C1 counterexample: the admin ids "org!" and "org?" are distinct tenant
identifiers, but both sanitize to the partition key "org", so they share a
database file.  An event created under "org!" is resolved by
`get_event_details` under "org?" and appears in the event listing of
"org?", contradicting the claim that a lookup scoped to a different tenant
returns not-found for every pair of distinct tenant identifiers. -/
theorem C1_counterexample :
    ("org!" : String) ≠ "org?" ∧
    create_event_top [] "org!" "Party" "2024-06-01" "" sampleFF 100 =
      some ("EVENT-Party-100",
        [("org", ⟨[⟨"EVENT-Party-100", "Party", "2024-06-01", "",
          true, true, true, false, false, 100⟩], [], 1⟩)]) ∧
    (get_event_details
      [("org", ⟨[⟨"EVENT-Party-100", "Party", "2024-06-01", "",
        true, true, true, false, false, 100⟩], [], 1⟩)]
      "org?" "EVENT-Party-100").isSome = true ∧
    "EVENT-Party-100" ∈
      (get_events_top
        [("org", ⟨[⟨"EVENT-Party-100", "Party", "2024-06-01", "",
          true, true, true, false, false, 100⟩], [], 1⟩)]
        "org?").map (fun q => q.1) := by
  refine ⟨by decide, by decide, by decide, by decide⟩

/-- C1 amended: cross-tenant isolation holds between tenants whose
sanitized identifiers differ (distinct partition keys of the database
files): creating an event under tenant t1 changes nothing a lookup or
listing scoped to tenant t2 can observe — every `get_event_details` under
t2 and the event listing under t2 are exactly as before the creation, so
t1's new event is never resolved by t2 and never appears in t2's listing. -/
theorem C1_isolation (dbs : Databases) (t1 t2 : String)
    (h : sanitize_id t1 ≠ sanitize_id t2)
    (en ed eds : String) (ff : FormFields) (now : Nat)
    (eid : String) (dbs' : Databases)
    (hc : create_event_top dbs t1 en ed eds ff now = some (eid, dbs')) :
    (∀ e, get_event_details dbs' t2 e = get_event_details dbs t2 e) ∧
    get_events_top dbs' t2 = get_events_top dbs t2 := by
  unfold create_event_top at hc
  dsimp only at hc
  cases hcr : create_event ((getDB dbs (sanitize_id t1)).getD emptyDB)
      en ed eds ff now with
  | none => rw [hcr] at hc; exact absurd hc (by simp)
  | some q =>
    rw [hcr] at hc
    simp only [Option.some.injEq, Prod.mk.injEq] at hc
    obtain ⟨-, hdbs⟩ := hc
    have hget : getDB dbs' (sanitize_id t2) = getDB dbs (sanitize_id t2) := by
      rw [← hdbs]
      exact getDB_setDB_ne dbs (sanitize_id t1) (sanitize_id t2) q.2 h
    constructor
    · intro e
      unfold get_event_details
      rw [hget]
    · unfold get_events_top
      rw [hget]

/-- C1 witness: a concrete instantiation of `C1_isolation` for tenants "a"
and "b". -/
theorem C1_isolation_witness :
    get_event_details
      [("a", ⟨[⟨"EVENT-X-5", "X", "d", "", true, true, true, false, false, 5⟩],
        [], 1⟩)] "b" "EVENT-X-5" =
    get_event_details ([] : Databases) "b" "EVENT-X-5" :=
  (C1_isolation [] "a" "b" (by decide) "X" "d" "" sampleFF 5 "EVENT-X-5"
    [("a", ⟨[⟨"EVENT-X-5", "X", "d", "", true, true, true, false, false, 5⟩],
      [], 1⟩)] (by decide)).1 "EVENT-X-5"

/-! ## C9: event listing order -/

/-- C9: for every tenant, the event listing is that tenant's events (a
permutation of the rows of its partition), ordered by creation time
descending — the most recently created event first. -/
theorem C9_listEvents_order (dbs : Databases) (admin_id : String) :
    ∃ l : List Event,
      l.Perm ((getDB dbs (sanitize_id admin_id)).getD emptyDB).events ∧
      l.Sorted createdLater ∧
      get_events_top dbs admin_id =
        l.map (fun e => (e.event_id, e.event_name, e.event_date,
          e.event_description)) := by
  refine ⟨((getDB dbs (sanitize_id admin_id)).getD emptyDB).events.insertionSort
    createdLater, ?_, ?_, rfl⟩
  · exact List.perm_insertionSort _ _
  · exact List.sorted_insertionSort _ _

/-! ## C3: registration validation -/

/-- C3: if any field the event flags as required (a collected name, phone
or email) is absent or empty, or the package selection is still the
placeholder "Select package", the submission is rejected with the list of
missing/invalid field names and the stored data is unchanged. -/
theorem C3_validation (dbs : Databases) (admin_id event_id : String)
    (form : FormData) (now : Nat) (ns : String) (ev : Event)
    (hev : get_event_details dbs admin_id event_id = some ev)
    (h : (ev.collect_name = true ∧ pyTruthyOpt form.name = false) ∨
         (ev.collect_phone = true ∧ pyTruthyOpt form.phone = false) ∨
         (ev.collect_email = true ∧ pyTruthyOpt form.email = false) ∨
         form.event_type = "Select package") :
    required_fields ev form ≠ [] ∧
    submit_registration dbs admin_id event_id form now ns =
      (RegResult.rejected (required_fields ev form), dbs) := by
  have hne : required_fields ev form ≠ [] := by
    rcases h with ⟨h1, h2⟩ | ⟨h1, h2⟩ | ⟨h1, h2⟩ | h1
    · simp [required_fields, h1, h2]
    · simp [required_fields, h1, h2]
    · simp [required_fields, h1, h2]
    · simp [required_fields, h1]
  refine ⟨hne, ?_⟩
  unfold submit_registration
  rw [hev]
  simp [hne]

/-- C3 witness: Ada leaves the name box empty on an event collecting the
name; the submission is rejected and the stored data is unchanged. -/
theorem C3_witness :
    required_fields sampleEvent
      ⟨some "", some "5551234", some "ada@example.com", none, none,
        "Karaoke Only"⟩ ≠ [] ∧
    submit_registration (sampleDBs false) "org" "EVENT-Gala-50"
      ⟨some "", some "5551234", some "ada@example.com", none, none,
        "Karaoke Only"⟩ 100 "ts" =
      (RegResult.rejected (required_fields sampleEvent
        ⟨some "", some "5551234", some "ada@example.com", none, none,
          "Karaoke Only"⟩), sampleDBs false) :=
  C3_validation (sampleDBs false) "org" "EVENT-Gala-50"
    ⟨some "", some "5551234", some "ada@example.com", none, none,
      "Karaoke Only"⟩ 100 "ts" sampleEvent (by decide)
    (Or.inl ⟨by decide, by decide⟩)

/-! ## C4: ticket uniqueness -/

/-- C4 counterexample: two different guests (Ada and Bob) submit against
the same event within the same clock second with equal phone numbers.  The
two issued ticket ids are the SAME string "TKT-5551234-100", not pairwise
distinct; the first submission persists and the second hits the UNIQUE
constraint and fails outright. -/
theorem C4_counterexample :
    formA ≠ formB ∧
    ticket_id_for formA 100 = ticket_id_for formB 100 ∧
    (submit_registration noRegDBs "org" "EVENT-Gala-50" formA 100 "ts").1 =
      RegResult.completed "TKT-5551234-100" ∧
    (submit_registration
      (submit_registration noRegDBs "org" "EVENT-Gala-50" formA 100 "ts").2
      "org" "EVENT-Gala-50" formB 100 "ts").1 = RegResult.failed := by
  refine ⟨by decide, by decide, by decide, by decide⟩

/-- Every tenant database file satisfies the ticket-uniqueness invariant. -/
def DatabasesWF (dbs : Databases) : Prop := ∀ p ∈ dbs, uniqueTickets p.2

instance (db : TenantDB) : Decidable (uniqueTickets db) :=
  inferInstanceAs (Decidable (db.registrations.Pairwise _))

instance (dbs : Databases) : Decidable (DatabasesWF dbs) :=
  inferInstanceAs (Decidable (∀ p ∈ dbs, uniqueTickets p.2))

/-- A successful insert preserves ticket uniqueness: the UNIQUE constraint
admits the new row only when no existing row carries its ticket id. -/
theorem insert_registration_unique {db : TenantDB} {event_id : String}
    {form : FormData} {tid ns : String} {db' : TenantDB}
    (hins : insert_registration db event_id form tid ns = some db')
    (h : uniqueTickets db) : uniqueTickets db' := by
  unfold insert_registration at hins
  by_cases hany : db.registrations.any (fun r => r.ticket_id == tid) = true
  · rw [if_pos hany] at hins; exact absurd hins (by simp)
  · rw [if_neg hany] at hins
    simp only [Option.some.injEq] at hins
    subst hins
    unfold uniqueTickets at h ⊢
    rw [List.pairwise_append]
    refine ⟨h, by simp, ?_⟩
    intro a ha b hb
    simp only [List.mem_singleton] at hb
    subst hb
    have := (List.any_eq_false).1 (Bool.not_eq_true _ ▸ hany) a ha
    simp only [beq_eq_false_iff_ne] at this
    simpa using this

/-- Where a database read succeeds, the value was stored. -/
theorem getDB_mem {dbs : Databases} {k : String} {db : TenantDB}
    (h : getDB dbs k = some db) : ∃ p ∈ dbs, p.2 = db := by
  unfold getDB at h
  cases hf : dbs.find? (fun p => p.1 == k) with
  | none => rw [hf] at h; exact absurd h (by simp)
  | some p =>
    rw [hf] at h
    simp only [Option.map_some', Option.some.injEq] at h
    exact ⟨p, List.mem_of_find?_eq_some hf, h⟩

/-- Membership in an updated association list. -/
theorem mem_setDB {dbs : Databases} {k : String} {db : TenantDB} {p}
    (h : p ∈ setDB dbs k db) : p = (k, db) ∨ p ∈ dbs := by
  induction dbs with
  | nil => simp [setDB] at h; simp [h]
  | cons q rest ih =>
    simp only [setDB] at h
    by_cases hq : q.1 = k
    · rw [if_pos (beq_iff_eq.2 hq)] at h
      rcases List.mem_cons.1 h with h' | h'
      · exact Or.inl h'
      · exact Or.inr (List.mem_cons_of_mem _ h')
    · rw [if_neg (by simp [hq])] at h
      rcases List.mem_cons.1 h with h' | h'
      · exact Or.inr (List.mem_cons.2 (Or.inl h'))
      · rcases ih h' with h'' | h''
        · exact Or.inl h''
        · exact Or.inr (List.mem_cons_of_mem _ h'')

/-- C4 amended: the generated ticket ids are NOT pairwise distinct —
same-second submissions with equal phone numbers produce the same id and
the later one is rejected by the UNIQUE constraint — but the second half of
the claim holds: no two persisted registrations ever share a ticket_id.
Formally, a registration submission preserves the ticket-uniqueness
invariant of every tenant database file. -/
theorem C4_persisted_unique (dbs : Databases) (admin_id event_id : String)
    (form : FormData) (now : Nat) (ns : String) (h : DatabasesWF dbs) :
    DatabasesWF (submit_registration dbs admin_id event_id form now ns).2 := by
  unfold submit_registration
  cases hev : get_event_details dbs admin_id event_id with
  | none => exact h
  | some ev =>
    dsimp only
    by_cases hreq : required_fields ev form = []
    · rw [if_pos hreq]
      cases hdb : getDB dbs (sanitize_id admin_id) with
      | none => exact h
      | some db =>
        dsimp only
        cases hins : insert_registration db event_id form
            (ticket_id_for form now) ns with
        | none => exact h
        | some db' =>
          dsimp only
          intro p hp
          rcases mem_setDB hp with hp' | hp'
          · subst hp'
            obtain ⟨q, hq, hq2⟩ := getDB_mem hdb
            exact insert_registration_unique hins (hq2 ▸ h q hq)
          · exact h p hp'
    · rw [if_neg hreq]; exact h

/-- C4 witness: a concrete instantiation of `C4_persisted_unique`. -/
theorem C4_witness :
    DatabasesWF (submit_registration noRegDBs "org" "EVENT-Gala-50"
      formA 100 "ts").2 :=
  C4_persisted_unique noRegDBs "org" "EVENT-Gala-50" formA 100 "ts" (by decide)

/-! ## C5: duplicate-ticket conflict handling -/

/-- C5 counterexample: with a registration "TKT-5551234-100" already
stored, Ada's submission at clock second 100 generates the same ticket id,
hits the UNIQUE constraint and fails immediately with the transient
message, leaving the store unchanged: there is no internal retry.  The
spec-modelled bounded-retry workflow (`spec_retry_insert`) at the same
state, allowed clock readings 100, 101, 102, would succeed on its second
attempt with the regenerated id "TKT-5551234-101" — so the code does not
implement the claimed retry. -/
theorem C5_counterexample :
    submit_registration (sampleDBs false) "org" "EVENT-Gala-50" formA 100 "ts" =
      (RegResult.failed, sampleDBs false) ∧
    (spec_retry_insert (sampleDB false) "EVENT-Gala-50" formA
      [100, 101, 102] "ts").1 = RegResult.completed "TKT-5551234-101" := by
  refine ⟨by decide, by decide⟩

/-- C5 amended: there is no internal retry.  A single insert attempt is
made; when the generated ticket id collides with a stored one, the UNIQUE
constraint aborts the insert and the failure message asking the guest to
resubmit is surfaced at once, with the stored data unchanged. -/
theorem C5_no_retry (dbs : Databases) (admin_id event_id : String)
    (form : FormData) (now : Nat) (ns : String) (ev : Event) (db : TenantDB)
    (hev : get_event_details dbs admin_id event_id = some ev)
    (hreq : required_fields ev form = [])
    (hdb : getDB dbs (sanitize_id admin_id) = some db)
    (hconf : db.registrations.any
      (fun r => r.ticket_id == ticket_id_for form now) = true) :
    submit_registration dbs admin_id event_id form now ns =
      (RegResult.failed, dbs) := by
  unfold submit_registration
  rw [hev]
  dsimp only
  rw [if_pos hreq, hdb]
  dsimp only
  unfold insert_registration
  rw [if_pos hconf]

/-- C5 witness: a concrete instantiation of `C5_no_retry`. -/
theorem C5_no_retry_witness :
    submit_registration (sampleDBs false) "org" "EVENT-Gala-50" formB 100 "x" =
      (RegResult.failed, sampleDBs false) :=
  C5_no_retry (sampleDBs false) "org" "EVENT-Gala-50" formB 100 "x"
    sampleEvent (sampleDB false) (by decide) (by decide) (by decide) (by decide)

/-! ## C8: ticket identifier derivation -/

/-- C8: for every accepted registration, the issued ticket id is
"TKT-{phone}-{timestamp}" when a phone number was collected and is
non-empty, and "TKT-{timestamp}" otherwise. -/
theorem C8_ticket_derivation (dbs : Databases) (admin_id event_id : String)
    (form : FormData) (now : Nat) (ns : String) (tid : String)
    (dbs' : Databases)
    (h : submit_registration dbs admin_id event_id form now ns =
      (RegResult.completed tid, dbs')) :
    (∀ p, form.phone = some p → p ≠ "" →
      tid = "TKT-" ++ p ++ "-" ++ toString now) ∧
    ((form.phone = none ∨ form.phone = some "") →
      tid = "TKT-" ++ toString now) := by
  have htid : tid = ticket_id_for form now := by
    unfold submit_registration at h
    cases hev : get_event_details dbs admin_id event_id with
    | none => rw [hev] at h; exact absurd h (by simp)
    | some ev =>
      rw [hev] at h
      dsimp only at h
      by_cases hreq : required_fields ev form = []
      · rw [if_pos hreq] at h
        cases hdb : getDB dbs (sanitize_id admin_id) with
        | none => rw [hdb] at h; exact absurd h (by simp)
        | some db =>
          rw [hdb] at h
          dsimp only at h
          cases hins : insert_registration db event_id form
              (ticket_id_for form now) ns with
          | none => rw [hins] at h; exact absurd h (by simp)
          | some db' =>
            rw [hins] at h
            dsimp only at h
            have := congrArg Prod.fst h
            simp only at this
            exact (RegResult.completed.injEq _ _ ▸ this : _).symm ▸ rfl
      · rw [if_neg hreq] at h; exact absurd h (by simp)
  subst htid
  constructor
  · intro p hp hpne
    unfold ticket_id_for
    rw [hp]
    simp [hpne]
  · intro hp
    unfold ticket_id_for
    rcases hp with hp | hp <;> rw [hp] <;> simp

/-- C8 witness: Ada's accepted registration at clock second 100 with phone
"5551234" is ticketed "TKT-5551234-100". -/
theorem C8_witness :
    ("TKT-5551234-100" : String) = "TKT-" ++ "5551234" ++ "-" ++ toString 100 :=
  (C8_ticket_derivation noRegDBs "org" "EVENT-Gala-50" formA 100 "ts"
    "TKT-5551234-100"
    [("org", ⟨[sampleEvent],
      [⟨1, "EVENT-Gala-50", some "Ada", some "5551234", some "ada@example.com",
        none, none, some "Karaoke Only", "TKT-5551234-100", "ts", false⟩], 2⟩)]
    (by decide)).1 "5551234" rfl (by decide)

/-! ## C2: check-in semantics -/

/-- C2: evaluating the code at the failing input.  Ada's registration is
already checked in, yet `check_in_guest` reports a fresh successful
check-in (and displays the event id "EVENT-Gala-50" as the guest's name,
`guest[1]` being the `event_id` column).  The code's own comment at the
`guest[9] == 1` test says "Already checked in", but column 9 of
`SELECT *` is `registered_at` (a timestamp string, never equal to the
integer 1); the `checked_in` flag is column 10.  The stored state is
unchanged (the UPDATE rewrites 1 over 1), so no double-count occurs, but
the result is `CheckedIn`, not the `AlreadyCheckedIn(guestName)` the claim
requires. -/
theorem C2_second_check_in_bug :
    (sampleReg true).checked_in = true ∧
    check_in_guest (sampleDB true) "TKT-5551234-100" "EVENT-Gala-50" =
      (CheckInResult.checkedIn "EVENT-Gala-50", sampleDB true) := by
  refine ⟨by decide, by decide⟩

/-! ## C10: check-in frame property -/

/-- In a list with pairwise-distinct ticket ids, at most one row matches a
given ticket id. -/
theorem countP_le_one_of_unique {l : List Registration}
    (h : l.Pairwise (fun a b => a.ticket_id ≠ b.ticket_id)) (t : String) :
    l.countP (fun r => r.ticket_id == t) ≤ 1 := by
  induction l with
  | nil => simp
  | cons a l ih =>
    rw [List.pairwise_cons] at h
    rw [List.countP_cons]
    by_cases ha : a.ticket_id = t
    · have hz : l.countP (fun r => r.ticket_id == t) = 0 :=
        List.countP_eq_zero.2 (fun b hb => by
          have hne := h.1 b hb
          have hbt : b.ticket_id ≠ t := fun hbt => hne (by rw [ha, ← hbt])
          simp [hbt])
      simp [hz, ha]
    · have hb : (a.ticket_id == t) = false := beq_eq_false_iff_ne.2 ha
      rw [hb]
      simpa using ih h.2

/-- C10: the check-in frame property.  For every call, the events table
and the id counter are untouched; in the not-found and already-checked-in
outcomes the whole store is unchanged; in the successful outcome a
matching registration exists, at most one row carries the matched ticket
id (the UNIQUE constraint), and row by row the only modification is
setting `checked_in` to true on the rows whose `ticket_id` matches — every
other field of the matched row and every other row are unchanged. -/
theorem C10_check_in_frame (db : TenantDB) (tid eid : String)
    (h : uniqueTickets db) :
    (check_in_guest db tid eid).2.events = db.events ∧
    (check_in_guest db tid eid).2.next_id = db.next_id ∧
    ((check_in_guest db tid eid).1 = CheckInResult.notFound →
      (check_in_guest db tid eid).2 = db) ∧
    (∀ n, (check_in_guest db tid eid).1 = CheckInResult.alreadyCheckedIn n →
      (check_in_guest db tid eid).2 = db) ∧
    (∀ n, (check_in_guest db tid eid).1 = CheckInResult.checkedIn n →
      (∃ r ∈ db.registrations, r.ticket_id = tid ∧ r.event_id = eid) ∧
      db.registrations.countP (fun r => r.ticket_id == tid) ≤ 1 ∧
      (check_in_guest db tid eid).2.registrations.length =
        db.registrations.length ∧
      ∀ i (hi : i < db.registrations.length)
        (hi' : i < (check_in_guest db tid eid).2.registrations.length),
        ((db.registrations.get ⟨i, hi⟩).ticket_id ≠ tid →
          (check_in_guest db tid eid).2.registrations.get ⟨i, hi'⟩ =
            db.registrations.get ⟨i, hi⟩) ∧
        ((db.registrations.get ⟨i, hi⟩).ticket_id = tid →
          (check_in_guest db tid eid).2.registrations.get ⟨i, hi'⟩ =
            { db.registrations.get ⟨i, hi⟩ with checked_in := true })) := by
  unfold check_in_guest
  cases hf : db.registrations.find?
      (fun r => r.ticket_id == tid && r.event_id == eid) with
  | none =>
    dsimp only
    refine ⟨rfl, rfl, fun _ => rfl, fun n _ => rfl, fun n hn => ?_⟩
    simp at hn
  | some guest =>
    have hcond : ¬ pyEqOne (guest.star.getD 9 SqlValue.null) = true := by
      simp [Registration.star, pyEqOne]
    dsimp only
    rw [if_neg hcond]
    refine ⟨rfl, rfl, ?_, ?_, ?_⟩
    · intro hcon; simp at hcon
    · intro n hcon; simp at hcon
    · intro n _
      have hmem := List.mem_of_find?_eq_some hf
      have hpred := List.find?_some hf
      rw [Bool.and_eq_true] at hpred
      obtain ⟨hpt, hpe⟩ := hpred
      refine ⟨⟨guest, hmem, beq_iff_eq.1 hpt, beq_iff_eq.1 hpe⟩,
        countP_le_one_of_unique h tid, by simp, ?_⟩
      intro i hi hi'
      constructor
      · intro hne
        rw [List.get_eq_getElem] at hne
        simp only [List.get_eq_getElem, List.getElem_map]
        rw [if_neg (by simpa using hne)]
      · intro heq
        rw [List.get_eq_getElem] at heq
        simp only [List.get_eq_getElem, List.getElem_map]
        rw [if_pos (by simpa using heq)]

/-- C10 witness: a concrete instantiation of `C10_check_in_frame`. -/
theorem C10_witness :
    (check_in_guest (sampleDB false) "TKT-5551234-100" "EVENT-Gala-50").2.events =
      (sampleDB false).events :=
  (C10_check_in_frame (sampleDB false) "TKT-5551234-100" "EVENT-Gala-50"
    (by decide)).1

end EventApp
